import Mathlib

/-!
Shallow embedding of the happy-eyeballs connection racers in
src/happy1.py, src/happy2.py, src/happy3.py and src/happy6.py.

Operating-system behaviour that the Python code observes (the outcome of a
`connect` call, the value read back by `getsockopt(SOL_SOCKET, SO_ERROR)`,
the result of `getaddrinfo`) is passed in explicitly as an environment.
The completion order of the concurrent probes (`as_completed`) is modelled
by an explicit list in completion order; where faithfulness requires it,
theorems assume that list is a permutation of the launched probes.
`sys.exit(1)` (which raises `SystemExit` and terminates the process) and
the `ValueError` raised by `ThreadPoolExecutor(max_workers=0)` are
modelled with an `Except` error channel.
-/

/-- What the OS-level `connect` call does on one socket: either it succeeds
after `durationMs` milliseconds of measured wall-clock time, or it raises
after `durationMs` milliseconds with message `msg` (timeout, refused,
unreachable, ...). The measured duration is the Python-side
`(time.time() - start) * 1000`, which is not clamped by `settimeout`. -/
inductive ConnResult where
  | ok (durationMs : Nat)
  | err (durationMs : Nat) (msg : String)
deriving DecidableEq, Repr

/-- The elapsed duration the Python code measures, in both branches. -/
def ConnResult.duration : ConnResult → Nat
  | .ok d => d
  | .err d _ => d

/-- Environment of one probe: what `connect` does, and the value
`s.getsockopt(socket.SOL_SOCKET, socket.SO_ERROR)` returns when the
`finally` block of `try_connect` runs (happy2/happy3/happy6). -/
structure SockEnv where
  connRes : ConnResult
  soError : Nat
deriving DecidableEq, Repr

/-- A Python exception that escapes the racer: `SystemExit` from
`sys.exit(code)`, or `ValueError` from `ThreadPoolExecutor(max_workers=0)`. -/
inductive PyError where
  | valueError (msg : String)
  | systemExit (code : Nat)
deriving DecidableEq, Repr

/-- `TIMEOUT_MS = 888` in happy1.py and happy2.py
(`DEF_NETWORKING_TIMEOUT = 888` in happy3.py and happy6.py). -/
def TIMEOUT_MS : Nat := 888

/-! ## happy1.py -/

/-- One `(family, addr[0], addr[1])` triple from `resolve_addresses`
in happy1.py. -/
structure Addr1 where
  family : Nat
  ip : String
  port : Nat
deriving DecidableEq, Repr

/-- The outcome of `socket.getaddrinfo`: an address list, or `gaierror`. -/
inductive DnsResult where
  | ok (infos : List Addr1)
  | gaierror (msg : String)
deriving DecidableEq, Repr

/-- happy1.py `resolve_addresses` (lines 8-15): returns the resolved
triples, but on `socket.gaierror` prints and calls `sys.exit(1)`,
terminating the process. -/
def resolve_addresses1 (dns : DnsResult) : Except PyError (List Addr1) :=
  match dns with
  | .ok infos => Except.ok infos
  | .gaierror _ => Except.error (PyError.systemExit 1)

/-- The dict happy1.py `try_connect` returns on success:
`{"ip", "port", "duration_ms", "socket"}`. -/
structure H1Result where
  ip : String
  port : Nat
  durationMs : Nat
deriving DecidableEq, Repr

/-- Result of happy1.py `try_connect` together with whether the socket was
closed before returning. -/
structure TC1 where
  res : Option H1Result
  socketClosed : Bool
deriving DecidableEq, Repr

/-- happy1.py `try_connect` (lines 17-27): on success returns the result
dict (socket left open, handed to the caller); on any exception closes the
socket and returns `None`. -/
def try_connect1 (ip : String) (port : Nat) (env : SockEnv) : TC1 :=
  match env.connRes with
  | .ok d =>
    { res := some { ip := ip, port := port, durationMs := d }, socketClosed := false }
  | .err _ _ =>
    { res := none, socketClosed := true }

/-- The `as_completed` loop of happy1.py `happy_eyeballs` (lines 34-42):
walks the probes in completion order; the first future whose result is
non-`None` with `duration_ms <= TIMEOUT_MS` is returned; otherwise `None`
after the loop. `completed` is the candidate list in completion order and
`conn` gives each probe's environment. -/
def race1 (conn : Addr1 → SockEnv) : List Addr1 → Option H1Result
  | [] => none
  | a :: rest =>
    match (try_connect1 a.ip a.port (conn a)).res with
    | some r => if r.durationMs ≤ TIMEOUT_MS then some r else race1 conn rest
    | none => race1 conn rest

/-- happy1.py `happy_eyeballs` (lines 29-42): resolve (which may terminate
the process), build `ThreadPoolExecutor(max_workers=len(addresses))`
(which raises `ValueError` when the list is empty), then race. -/
def happy_eyeballs1 (dns : DnsResult) (conn : Addr1 → SockEnv)
    (completed : List Addr1) : Except PyError (Option H1Result) :=
  match resolve_addresses1 dns with
  | .error e => Except.error e
  | .ok addresses =>
    if addresses.length = 0 then
      Except.error (PyError.valueError ("max_workers must be greater than 0"))
    else Except.ok (race1 conn completed)

/-! ## happy2.py -/

/-- The dict happy2.py `try_connect` returns: `ip`, `port`, `duration_ms`
and `success` always; `error` only in the failure dict (modelled as
`Option`, `none` meaning the key is absent). -/
structure Outcome2 where
  ip : String
  port : Nat
  durationMs : Nat
  success : Bool
  error : Option String
deriving DecidableEq, Repr

/-- Result of happy2.py `try_connect` together with whether the socket was
closed before returning. -/
structure TC2 where
  res : Outcome2
  socketClosed : Bool
deriving DecidableEq, Repr

/-- happy2.py `try_connect` (lines 17-30): returns a structured dict in
both branches, with `duration_ms` measured in each and `error` only on
failure. Its `finally` runs
`if not s._closed and not s.getsockopt(SOL_SOCKET, SO_ERROR) == 0: s.close()`;
no earlier close happens, so the socket is closed exactly when the
`SO_ERROR` value read there is nonzero. -/
def try_connect2 (ip : String) (port : Nat) (env : SockEnv) : TC2 :=
  match env.connRes with
  | .ok d =>
    { res := { ip := ip, port := port, durationMs := d, success := true, error := none },
      socketClosed := env.soError != 0 }
  | .err d msg =>
    { res := { ip := ip, port := port, durationMs := d, success := false, error := some msg },
      socketClosed := env.soError != 0 }

/-- The winner test of happy2.py line 53 / happy3.py line 71:
`res['success'] and time_taken <= timeout`. -/
def winnerCond (timeout : Nat) (r : Outcome2) : Bool :=
  r.success && decide (r.durationMs ≤ timeout)

/-- The `as_completed` loop of happy2.py `happy_eyeballs` (lines 38-58):
append every completed result to `results`; on the first result passing
`winnerCond` while `winner` is still `None`, lock it as winner (`not
winner` keeps any later result from replacing it). Returns
`(winner, results)`. -/
def h2_loop (timeout : Nat) : List Outcome2 → Option Outcome2 → Option Outcome2 × List Outcome2
  | [], w => (w, [])
  | r :: rest, w =>
    let w' := if winnerCond timeout r && w.isNone then some r else w
    let p := h2_loop timeout rest w'
    (p.1, r :: p.2)

/-- happy2.py `happy_eyeballs` (lines 32-60): resolve (same
process-terminating `resolve_addresses` as happy1), build the executor
(`ValueError` on an empty address list), then run the loop with the fixed
`TIMEOUT_MS`. -/
def happy_eyeballs2 (dns : DnsResult) (completed : List Outcome2) :
    Except PyError (Option Outcome2 × List Outcome2) :=
  match resolve_addresses1 dns with
  | .error e => Except.error e
  | .ok addresses =>
    if addresses.length = 0 then
      Except.error (PyError.valueError ("max_workers must be greater than 0"))
    else Except.ok (h2_loop TIMEOUT_MS completed none)

/-! ## happy3.py -/

/-- The dict happy3.py `try_connect` returns (happy2's plus `family`). -/
structure Outcome3 where
  ip : String
  port : Nat
  durationMs : Nat
  success : Bool
  error : Option String
  family : Nat
deriving DecidableEq, Repr

/-- Result of happy3.py `try_connect` together with whether the socket was
closed before returning. -/
structure TC3 where
  res : Outcome3
  socketClosed : Bool
deriving DecidableEq, Repr

/-- happy3.py `try_connect` (lines 23-36): same shape as happy2's, with
`family` echoed into the dict and the timeout passed as a parameter (it
only feeds `settimeout`, i.e. the environment). -/
def try_connect3 (family : Nat) (ip : String) (port : Nat) (timeoutMs : Nat)
    (env : SockEnv) : TC3 :=
  match env.connRes with
  | .ok d =>
    { res := { ip := ip, port := port, durationMs := d, success := true, error := none,
               family := family },
      socketClosed := env.soError != 0 }
  | .err d msg =>
    { res := { ip := ip, port := port, durationMs := d, success := false, error := some msg,
               family := family },
      socketClosed := env.soError != 0 }

/-- happy3.py's `AddrInfo` NamedTuple. -/
structure AddrInfo where
  family : Nat
  ip : String
  port : Nat
  durationMs : Nat
deriving DecidableEq, Repr

/-- Line 72 of happy3.py: `AddrInfo(family=fam, ip=ip, port=port,
duration_ms=time_taken)` built from a completed result. -/
def mkAddrInfo3 (r : Outcome3) : AddrInfo :=
  { family := r.family, ip := r.ip, port := r.port, durationMs := r.durationMs }

/-- The winner test of happy3.py line 71 on an `Outcome3`. -/
def winnerCond3 (timeout : Nat) (r : Outcome3) : Bool :=
  r.success && decide (r.durationMs ≤ timeout)

/-- The `as_completed` loop of happy3.py `happyeyeballs` (lines 60-76):
first completed result with `success and time_taken <= timeout and not
winner` is locked as winner; the loop keeps running but `not winner`
(an `AddrInfo` NamedTuple is always truthy) blocks any replacement. -/
def h3_loop (timeout : Nat) : List Outcome3 → Option AddrInfo → Option AddrInfo
  | [], w => w
  | r :: rest, w =>
    h3_loop timeout rest (if winnerCond3 timeout r && w.isNone then some (mkAddrInfo3 r) else w)

/-- happy3.py `happyeyeballs` (lines 38-78): on `gaierror` logs and
returns `None` (no exception escapes); otherwise builds the executor
(`ValueError` on an empty address list) and runs the loop. `dns` is the
`getaddrinfo` outcome as `(family, ip)` pairs. -/
def happyeyeballs3 (timeout : Nat) (dns : Except String (List (Nat × String)))
    (completed : List Outcome3) : Except PyError (Option AddrInfo) :=
  match dns with
  | .error _ => Except.ok none
  | .ok addresses =>
    if addresses.length = 0 then
      Except.error (PyError.valueError ("max_workers must be greater than 0"))
    else Except.ok (h3_loop timeout completed none)

/-! ## happy6.py -/

/-- The `IPV6_MAPPING` static table of happy6.py (lines 23-36). -/
def IPV6_MAPPING : List (String × String) :=
  [ ("news.eweka.nl", "news6.eweka.nl"),
    ("news.xlned.com", "news6.xlned.com"),
    ("news.easynews.com", "news6.easynews.com"),
    ("news.tweaknews.nl", "news6.tweaknews.nl"),
    ("news.tweaknews.eu", "news6.tweaknews.eu"),
    ("news.astraweb.com", "news6.astraweb.com"),
    ("news.pureusenet.nl", "news6.pureusenet.nl"),
    ("news.sunnyusenet.com", "news6.sunnyusenet.com"),
    ("news.newshosting.com", "news6.newshosting.com"),
    ("news.usenetserver.com", "news6.usenetserver.com"),
    ("news.frugalusenet.com", "news-v6.frugalusenet.com"),
    ("eunews.frugalusenet.com", "eunews-v6.frugalusenet.com") ]

/-- Python's `host in IPV6_MAPPING` / `IPV6_MAPPING[host]` dict lookup
(the keys of the table are pairwise distinct). -/
def lookupMapping (host : String) : Option String :=
  (IPV6_MAPPING.find? (fun p => p.1 == host)).map Prod.snd

/-- Lines 49-51 of happy6.py: `hosts_to_try = [host]`, plus the mapped
alternate when `host` is a key of `IPV6_MAPPING`. -/
def hostsToTry (host : String) : List String :=
  match lookupMapping host with
  | some alt => [host, alt]
  | none => [host]

/-- happy6.py `resolve_addresses` (lines 53-64): runs `getaddrinfo` on a
single worker and waits at most `dns_timeout` for it; any exception —
`gaierror` or the `TimeoutError` from `future.result(timeout=dns_timeout)`
— is caught, logged, and turned into the empty list. The argument is the
outcome of that bounded wait: resolved `(family, ip)` pairs, or the
exception message. -/
def resolve_addresses6 (res : Except String (List (Nat × String))) : List (Nat × String) :=
  match res with
  | .ok infos => infos
  | .error _ => []

/-- One entry of `all_addresses` in happy6.py (lines 66-70): a resolved
`(fam, ip, h)` triple remembering which hostname produced it. -/
structure Candidate where
  family : Nat
  ip : String
  hostname : String
deriving DecidableEq, Repr

/-- Lines 66-70 of happy6.py: resolve every hostname of `hosts_to_try` in
turn, tagging each resolved address with its source hostname. `dns` maps
each hostname to the outcome of its own bounded resolution. -/
def allAddresses6 (host : String) (dns : String → Except String (List (Nat × String))) :
    List Candidate :=
  (hostsToTry host).flatMap
    (fun h => (resolve_addresses6 (dns h)).map
      (fun p => { family := p.1, ip := p.2, hostname := h }))

/-- The dict happy6.py `try_connect` returns (happy3's plus `hostname`). -/
structure Outcome6 where
  ip : String
  port : Nat
  durationMs : Nat
  success : Bool
  error : Option String
  family : Nat
  hostname : String
deriving DecidableEq, Repr

/-- Result of happy6.py `try_connect` together with whether the socket was
closed before returning. -/
structure TC6 where
  res : Outcome6
  socketClosed : Bool
deriving DecidableEq, Repr

/-- happy6.py `try_connect` (lines 38-47): same shape as happy3's, with
the source hostname echoed into the dict. -/
def try_connect6 (c : Candidate) (port : Nat) (timeoutMs : Nat) (env : SockEnv) : TC6 :=
  match env.connRes with
  | .ok d =>
    { res := { ip := c.ip, port := port, durationMs := d, success := true, error := none,
               family := c.family, hostname := c.hostname },
      socketClosed := env.soError != 0 }
  | .err d msg =>
    { res := { ip := c.ip, port := port, durationMs := d, success := false, error := some msg,
               family := c.family, hostname := c.hostname },
      socketClosed := env.soError != 0 }

/-- happy6.py's `AddrInfo` NamedTuple (with `hostname`). -/
structure AddrInfo6 where
  family : Nat
  ip : String
  port : Nat
  durationMs : Nat
  hostname : String
deriving DecidableEq, Repr

/-- The `as_completed` loop of happy6.py `happyeyeballs` (lines 93-108):
walks the probes in completion order and, at the FIRST result with
`res['success']` true (no comparison of the duration against the
timeout), cancels the remaining futures and returns
`AddrInfo(family=fam, ip=ip, port=port, duration_ms=time_taken,
hostname=h)`; `None` after the loop. -/
def race6 (port : Nat) (timeout : Nat) (conn : Candidate → SockEnv) :
    List Candidate → Option AddrInfo6
  | [] => none
  | c :: rest =>
    let r := (try_connect6 c port timeout (conn c)).res
    if r.success then
      some { family := r.family, ip := r.ip, port := port, durationMs := r.durationMs,
             hostname := r.hostname }
    else race6 port timeout conn rest

/-- happy6.py `happyeyeballs` (lines 66-108): build `all_addresses` from
every hostname of `hosts_to_try`; if it is empty, log and return `None`;
otherwise race the candidates, `completed` being the candidate list in
completion order. -/
def happyeyeballs6 (host : String) (port : Nat) (timeout : Nat)
    (dns : String → Except String (List (Nat × String)))
    (conn : Candidate → SockEnv)
    (completed : List Candidate) : Option AddrInfo6 :=
  if (allAddresses6 host dns).isEmpty then none
  else race6 port timeout conn completed

/-! ## Helper lemmas -/

/-- The `results` list of happy2.py collects every completed outcome,
whatever the winner state. -/
lemma h2_loop_snd (t : Nat) : ∀ (outs : List Outcome2) (w : Option Outcome2),
    (h2_loop t outs w).2 = outs
  | [], _ => rfl
  | r :: rest, w => by
    simp [h2_loop, h2_loop_snd t rest]

/-- Once `winner` is set in happy2.py, the `not winner` guard keeps it. -/
lemma h2_loop_fst_some (t : Nat) (x : Outcome2) : ∀ outs : List Outcome2,
    (h2_loop t outs (some x)).1 = some x
  | [] => rfl
  | r :: rest => by
    simp [h2_loop, h2_loop_fst_some t x rest]

/-- The winner the happy2.py loop picks is the first completed outcome
passing `winnerCond`. -/
lemma h2_loop_fst_none (t : Nat) : ∀ outs : List Outcome2,
    (h2_loop t outs none).1 = outs.find? (winnerCond t)
  | [] => rfl
  | r :: rest => by
    by_cases h : winnerCond t r
    · simp [h2_loop, h, h2_loop_fst_some, List.find?_cons_of_pos]
    · simp [h2_loop, h, h2_loop_fst_none t rest, List.find?_cons_of_neg]

/-- Once `winner` is set in happy3.py, the `not winner` guard keeps it. -/
lemma h3_loop_some (t : Nat) (x : AddrInfo) : ∀ outs : List Outcome3,
    h3_loop t outs (some x) = some x
  | [] => rfl
  | r :: rest => by
    simp [h3_loop, h3_loop_some t x rest]

/-- The winner the happy3.py loop picks is the first completed outcome
passing `winnerCond3`, packaged as an `AddrInfo`. -/
lemma h3_loop_none (t : Nat) : ∀ outs : List Outcome3,
    h3_loop t outs none = (outs.find? (winnerCond3 t)).map mkAddrInfo3
  | [] => rfl
  | r :: rest => by
    by_cases h : winnerCond3 t r
    · simp [h3_loop, h, h3_loop_some, List.find?_cons_of_pos]
    · simp [h3_loop, h, h3_loop_none t rest, List.find?_cons_of_neg]

/-- happy6.py `try_connect` echoes the candidate's source hostname into
the result dict in both branches. -/
lemma try_connect6_hostname (c : Candidate) (port t : Nat) (env : SockEnv) :
    (try_connect6 c port t env).res.hostname = c.hostname := by
  rcases env with ⟨cr, so⟩
  cases cr <;> rfl

/-- Inversion for the happy6.py race loop: a returned winner comes from
some candidate in the completion list whose probe succeeded, and it
carries that candidate's hostname and the probe's measured duration. -/
lemma race6_some (port t : Nat) (conn : Candidate → SockEnv) :
    ∀ (cs : List Candidate) (b : AddrInfo6), race6 port t conn cs = some b →
      ∃ c ∈ cs, (try_connect6 c port t (conn c)).res.success = true
        ∧ b.hostname = c.hostname
        ∧ b.durationMs = (try_connect6 c port t (conn c)).res.durationMs
  | [], b, h => by simp [race6] at h
  | c :: rest, b, h => by
    by_cases hs : (try_connect6 c port t (conn c)).res.success
    · refine ⟨c, List.mem_cons_self c rest, hs, ?_⟩
      simp only [race6, hs, if_true] at h
      cases h
      exact ⟨try_connect6_hostname c port t (conn c), rfl⟩
    · simp only [race6, hs, if_false] at h
      obtain ⟨d, hd, hsucc, hrest⟩ := race6_some port t conn rest b h
      exact ⟨d, List.mem_cons_of_mem c hd, hsucc, hrest⟩

/-- A flat-map over hostnames that each contribute no candidates is empty. -/
lemma flatMap_eq_nil_of {α β : Type} (f : α → List β) :
    ∀ l : List α, (∀ a ∈ l, f a = []) → l.flatMap f = []
  | [], _ => rfl
  | a :: l, h => by
    have h1 : f a = [] := h a (List.mem_cons_self a l)
    have h2 := flatMap_eq_nil_of f l (fun x hx => h x (List.mem_cons_of_mem a hx))
    simp [h1, h2]

/-! ## Claim theorems -/

/-- Claim C1, counterexample. In happy6.py the winner test (line 100) is
`if res['success']:` alone — the measured duration is never compared to
`timeout`. A probe that succeeds with a measured duration of 889 ms under
the default 888 ms budget (possible, since the duration is measured in
user space around the `connect` call) is still selected as winner, so an
outcome exceeding the timeout DOES qualify, refuting the claim as stated
for this racer. -/
theorem C1_counterexample :
    happyeyeballs6 ("news.eweka.nl") 119 888
        (fun _ => Except.ok [(10, "2001:db8::1")])
        (fun _ => { connRes := ConnResult.ok 889, soError := 0 })
        [ { family := 10, ip := "2001:db8::1", hostname := "news6.eweka.nl" },
          { family := 10, ip := "2001:db8::1", hostname := "news.eweka.nl" } ]
      = some { family := 10, ip := "2001:db8::1", port := 119, durationMs := 889,
               hostname := "news6.eweka.nl" }
    ∧ 888 < 889 := by
  exact ⟨rfl, by decide⟩

/-- Claim C1, amended: in happy3.py (line 71, and identically happy2.py
line 53) an outcome is selected as winner only if its success flag is true
and its `durationMs` is at most the timeout (the boundary `durationMs =
timeout` qualifies, via `<=`); in happy6.py the winner condition is the
success flag alone, with no duration comparison. -/
theorem C1_winner_condition :
    (∀ (timeout : Nat) (outs : List Outcome3) (a : AddrInfo),
        h3_loop timeout outs none = some a →
        ∃ r ∈ outs, r.success = true ∧ r.durationMs ≤ timeout ∧ a = mkAddrInfo3 r)
    ∧ (∀ (port timeout : Nat) (conn : Candidate → SockEnv)
        (cs : List Candidate) (b : AddrInfo6),
        race6 port timeout conn cs = some b →
        ∃ c ∈ cs, (try_connect6 c port timeout (conn c)).res.success = true) := by
  constructor
  · intro timeout outs a h
    rw [h3_loop_none] at h
    obtain ⟨r, hfind, ha⟩ := Option.map_eq_some'.mp h
    refine ⟨r, List.mem_of_find?_eq_some hfind, ?_, ?_, ha.symm⟩
    · have := List.find?_some hfind
      simp [winnerCond3] at this
      exact this.1
    · have := List.find?_some hfind
      simp [winnerCond3] at this
      exact this.2
  · intro port timeout conn cs b h
    obtain ⟨c, hc, hsucc, _⟩ := race6_some port timeout conn cs b h
    exact ⟨c, hc, hsucc⟩

/-- Witness for `C1_winner_condition` at concrete inputs; the happy3 case
exercises the boundary `durationMs = timeout = 888`. -/
theorem C1_winner_condition_witness :
    (∃ r ∈ ([{ ip := "10.0.0.1", port := 119, durationMs := 888, success := true,
               error := none, family := 2 }] : List Outcome3),
        r.success = true ∧ r.durationMs ≤ 888
          ∧ ({ family := 2, ip := "10.0.0.1", port := 119, durationMs := 888 } : AddrInfo)
              = mkAddrInfo3 r)
    ∧ (∃ c ∈ ([{ family := 10, ip := "fd00::1", hostname := "h6" }] : List Candidate),
        (try_connect6 c 119 888
            ((fun _ => ({ connRes := ConnResult.ok 5, soError := 0 } : SockEnv)) c)).res.success
          = true) :=
  ⟨C1_winner_condition.1 888 _ _ (by decide),
   C1_winner_condition.2 119 888 _ _
     { family := 10, ip := "fd00::1", port := 119, durationMs := 5, hostname := "h6" }
     (by decide)⟩

/-- Claim C2: in happy2.py and happy3.py the winner is exactly the FIRST
outcome in completion order passing the winner condition (`find?` on the
completion-ordered list) — not input order, not minimum duration — and
since the fold only writes `winner` when it is still `None`, no
later-completing outcome ever replaces it. -/
theorem C2_first_completion_wins :
    ∀ (timeout : Nat) (outs2 : List Outcome2) (outs3 : List Outcome3),
      (h2_loop timeout outs2 none).1 = outs2.find? (winnerCond timeout)
      ∧ h3_loop timeout outs3 none = (outs3.find? (winnerCond3 timeout)).map mkAddrInfo3 :=
  fun t o2 o3 => ⟨h2_loop_fst_none t o2, h3_loop_none t o3⟩

/-- Claim C3, counterexample. In happy1.py (and identically happy2.py),
`resolve_addresses` reacts to a DNS resolution failure with `sys.exit(1)`:
the race terminates the whole process instead of returning a no-winner
result, refuting the claim as stated for those racers. -/
theorem C3_counterexample :
    happy_eyeballs1 (DnsResult.gaierror ("Name or service not known"))
        (fun _ => { connRes := ConnResult.err 1 ("unreachable"), soError := 0 }) []
      = Except.error (PyError.systemExit 1) := rfl

/-- Claim C3, amended: in happy6.py, when every hostname in `hosts_to_try`
fails to resolve (or its bounded wait times out), the candidate list is
empty and `happyeyeballs` returns `None` without raising; happy3.py
likewise returns `None` on `gaierror`. In happy1.py and happy2.py,
however, a DNS failure terminates the process via `sys.exit(1)`. -/
theorem C3_dns_failure_yields_no_winner
    (host : String) (port timeout : Nat)
    (dns : String → Except String (List (Nat × String)))
    (conn : Candidate → SockEnv) (completed : List Candidate)
    (timeout3 : Nat) (e : String) (completed3 : List Outcome3)
    (hfail : ∀ h ∈ hostsToTry host, ∃ msg, dns h = Except.error msg) :
    allAddresses6 host dns = []
    ∧ happyeyeballs6 host port timeout dns conn completed = none
    ∧ happyeyeballs3 timeout3 (Except.error e) completed3 = Except.ok none := by
  have hnil : allAddresses6 host dns = [] := by
    unfold allAddresses6
    refine flatMap_eq_nil_of _ _ ?_
    intro h hh
    obtain ⟨msg, hmsg⟩ := hfail h hh
    simp [hmsg, resolve_addresses6]
  refine ⟨hnil, ?_, rfl⟩
  unfold happyeyeballs6
  simp [hnil]

/-- Witness for `C3_dns_failure_yields_no_winner`: both hostnames of a
mapped primary fail to resolve. -/
theorem C3_dns_failure_witness :
    allAddresses6 ("news.eweka.nl") (fun _ => Except.error ("resolution timed out")) = []
    ∧ happyeyeballs6 ("news.eweka.nl") 119 888
        (fun _ => Except.error ("resolution timed out"))
        (fun _ => { connRes := ConnResult.ok 5, soError := 0 }) []
      = none
    ∧ happyeyeballs3 888 (Except.error ("gaierror")) [] = Except.ok none :=
  C3_dns_failure_yields_no_winner ("news.eweka.nl") 119 888 _ _ [] 888 ("gaierror") []
    (fun _ _ => ⟨"resolution timed out", rfl⟩)

/-- Claim C4, counterexample. In happy1.py a failing probe returns `None`
(lines 25-27), not a structured outcome: there is no `duration_ms` and no
`error` field in the failure case, refuting the claim as stated for that
racer. -/
theorem C4_counterexample :
    (try_connect1 ("192.0.2.7") 119
        { connRes := ConnResult.err 7 ("connection refused"), soError := 111 }).res
      = none := rfl

/-- Claim C4, amended: in happy2.py (and identically happy3.py), every
probe returns a structured outcome whose `durationMs` equals the measured
elapsed time in both the success and the failure case, and whose `error`
field is present if and only if `success` is false; in happy1.py a failing
probe instead returns `None` with no structured outcome at all. -/
theorem C4_outcome_fields :
    ∀ (ip : String) (port : Nat) (env : SockEnv) (family timeoutMs : Nat),
      (try_connect2 ip port env).res.durationMs = env.connRes.duration
      ∧ ((try_connect2 ip port env).res.error.isSome
          ↔ (try_connect2 ip port env).res.success = false)
      ∧ (try_connect3 family ip port timeoutMs env).res.durationMs = env.connRes.duration
      ∧ ((try_connect3 family ip port timeoutMs env).res.error.isSome
          ↔ (try_connect3 family ip port timeoutMs env).res.success = false) := by
  intro ip port env family t
  rcases env with ⟨cr, so⟩
  cases cr <;> simp [try_connect2, try_connect3, ConnResult.duration]

/-- Claim C5: for a non-empty candidate list where no probe satisfies the
winner condition, happy2.py returns `(None, results)` with `results`
holding exactly one outcome per candidate (the completion-ordered list
itself, a permutation of the per-candidate probe results). -/
theorem C5_no_success_returns_none_and_all
    (infos : List Addr1) (conn : Addr1 → SockEnv) (completed : List Outcome2)
    (hne : infos ≠ [])
    (hperm : completed.Perm (infos.map (fun a => (try_connect2 a.ip a.port (conn a)).res)))
    (hfail : ∀ r ∈ completed, winnerCond TIMEOUT_MS r = false) :
    happy_eyeballs2 (DnsResult.ok infos) completed = Except.ok (none, completed)
    ∧ completed.length = infos.length := by
  have hfst : (h2_loop TIMEOUT_MS completed none).1 = none := by
    rw [h2_loop_fst_none]
    refine List.find?_eq_none.mpr ?_
    intro r hr
    simp [hfail r hr]
  have hsnd := h2_loop_snd TIMEOUT_MS completed none
  constructor
  · unfold happy_eyeballs2 resolve_addresses1
    have hlen : ¬ infos.length = 0 := by
      simpa [List.length_eq_zero] using hne
    simp only [hlen, if_false]
    congr 1
    exact Prod.ext_iff.mpr ⟨hfst, hsnd⟩
  · rw [hperm.length_eq, List.length_map]

/-- Witness for `C5_no_success_returns_none_and_all`: one candidate whose
probe is refused after 5 ms. -/
theorem C5_witness :
    happy_eyeballs2 (DnsResult.ok [{ family := 2, ip := "192.0.2.1", port := 119 }])
        [{ ip := "192.0.2.1", port := 119, durationMs := 5, success := false,
           error := some ("connection refused") }]
      = Except.ok (none,
          [{ ip := "192.0.2.1", port := 119, durationMs := 5, success := false,
             error := some ("connection refused") }])
    ∧ ([{ ip := "192.0.2.1", port := 119, durationMs := 5, success := false,
          error := some ("connection refused") }] : List Outcome2).length
        = ([{ family := 2, ip := "192.0.2.1", port := 119 }] : List Addr1).length :=
  C5_no_success_returns_none_and_all _
    (fun _ => { connRes := ConnResult.err 5 ("connection refused"), soError := 111 }) _
    (by decide) (by decide) (by decide)

/-- Claim C6: happy6.py resolves the primary hostname plus its
statically-mapped alternate exactly when the primary has an `IPV6_MAPPING`
entry (only the primary otherwise), and any winner it returns carries as
`hostname` the source hostname of the candidate that produced the winning
probe (so when the alias's address wins, the winner names the alias). -/
theorem C6_hosts_and_source_hostname :
    (∀ host alt : String, lookupMapping host = some alt → hostsToTry host = [host, alt])
    ∧ (∀ host : String, lookupMapping host = none → hostsToTry host = [host])
    ∧ (∀ (host : String) (port timeout : Nat)
        (dns : String → Except String (List (Nat × String)))
        (conn : Candidate → SockEnv) (completed : List Candidate) (b : AddrInfo6),
        completed.Perm (allAddresses6 host dns) →
        happyeyeballs6 host port timeout dns conn completed = some b →
        ∃ c ∈ completed, (try_connect6 c port timeout (conn c)).res.success = true
          ∧ b.hostname = c.hostname) := by
  refine ⟨?_, ?_, ?_⟩
  · intro host alt hm
    unfold hostsToTry
    rw [hm]
  · intro host hm
    unfold hostsToTry
    rw [hm]
  · intro host port timeout dns conn completed b _ hrun
    unfold happyeyeballs6 at hrun
    by_cases hemp : (allAddresses6 host dns).isEmpty
    · simp [hemp] at hrun
    · simp only [hemp, if_false] at hrun
      obtain ⟨c, hc, hsucc, hhn, _⟩ := race6_some port timeout conn completed b hrun
      exact ⟨c, hc, hsucc, hhn⟩

/-- Witness for `C6_hosts_and_source_hostname`, exercising scenario D:
`news.eweka.nl` is mapped to `news6.eweka.nl`; the primary's IPv4 probe is
refused, the alias's IPv6 probe succeeds, and the winner's hostname is the
alias. An unmapped hostname resolves only itself. -/
theorem C6_witness :
    hostsToTry ("news.eweka.nl") = ["news.eweka.nl", "news6.eweka.nl"]
    ∧ hostsToTry ("example.org") = ["example.org"]
    ∧ ∃ c ∈ ([ { family := 2, ip := "81.171.92.1", hostname := "news.eweka.nl" },
               { family := 10, ip := "2001:db8::6", hostname := "news6.eweka.nl" } ]
             : List Candidate),
        (try_connect6 c 119 888
            ((fun d => if d.family = 10
                then ({ connRes := ConnResult.ok 12, soError := 0 } : SockEnv)
                else ({ connRes := ConnResult.err 40 ("connection refused"), soError := 0 }
                      : SockEnv)) c)).res.success = true
          ∧ ({ family := 10, ip := "2001:db8::6", port := 119, durationMs := 12,
               hostname := "news6.eweka.nl" } : AddrInfo6).hostname = c.hostname :=
  ⟨C6_hosts_and_source_hostname.1 ("news.eweka.nl") ("news6.eweka.nl") (by decide),
   C6_hosts_and_source_hostname.2.1 ("example.org") (by decide),
   C6_hosts_and_source_hostname.2.2 ("news.eweka.nl") 119 888
     (fun h => if h = "news6.eweka.nl" then Except.ok [(10, "2001:db8::6")]
               else Except.ok [(2, "81.171.92.1")])
     (fun d => if d.family = 10
        then { connRes := ConnResult.ok 12, soError := 0 }
        else { connRes := ConnResult.err 40 ("connection refused"), soError := 0 })
     _ _ (by decide) (by decide)⟩

/-- Claim C7: in happy6.py, each hostname of `hosts_to_try` is resolved by
its own `resolve_addresses` call, whose bounded wait turns a failure or a
`dns_timeout` expiry into an empty list; when the primary's resolution
fails, it contributes zero candidates and `all_addresses` still holds
exactly the alternate hostname's candidates — the failure aborts nothing. -/
theorem C7_failed_resolution_does_not_abort
    (host alt e : String) (dns : String → Except String (List (Nat × String)))
    (hmap : lookupMapping host = some alt)
    (hfail : dns host = Except.error e) :
    resolve_addresses6 (dns host) = []
    ∧ allAddresses6 host dns
        = (resolve_addresses6 (dns alt)).map
            (fun p => { family := p.1, ip := p.2, hostname := alt }) := by
  have h0 : resolve_addresses6 (dns host) = [] := by
    rw [hfail]
    rfl
  refine ⟨h0, ?_⟩
  unfold allAddresses6 hostsToTry
  rw [hmap]
  simp [h0]

/-- Witness for `C7_failed_resolution_does_not_abort`: the primary
`news.xlned.com` times out while its alias still resolves. -/
theorem C7_witness :
    resolve_addresses6 ((fun h => if h = "news6.xlned.com"
        then Except.ok [(10, "2001:db8::2")]
        else (Except.error ("resolution timed out")
              : Except String (List (Nat × String)))) ("news.xlned.com")) = []
    ∧ allAddresses6 ("news.xlned.com")
        (fun h => if h = "news6.xlned.com"
          then Except.ok [(10, "2001:db8::2")]
          else Except.error ("resolution timed out"))
        = (resolve_addresses6 ((fun h => if h = "news6.xlned.com"
              then Except.ok [(10, "2001:db8::2")]
              else (Except.error ("resolution timed out")
                    : Except String (List (Nat × String)))) ("news6.xlned.com"))).map
            (fun p => { family := p.1, ip := p.2, hostname := "news6.xlned.com" }) :=
  C7_failed_resolution_does_not_abort ("news.xlned.com") ("news6.xlned.com")
    ("resolution timed out")
    (fun h => if h = "news6.xlned.com"
      then Except.ok [(10, "2001:db8::2")]
      else Except.error ("resolution timed out"))
    (by decide) (by rfl)

/-- Claim C8 (code bug): happy2.py's `finally` (identical in happy3.py and
happy6.py) closes the socket only when `getsockopt(SOL_SOCKET, SO_ERROR)`
reads nonzero. On a failing connect that leaves `SO_ERROR` at 0 — a plain
timeout, or any error CPython's `connect` already consumed, `SO_ERROR`
being clear-on-read — the failure outcome is returned with the socket
still open, contradicting the documented guarantee that the socket is
always closed on any failure path (which happy1.py's `except` handler does
honour). -/
theorem C8_socket_left_open_on_failure :
    (try_connect2 ("192.0.2.9") 119
        { connRes := ConnResult.err 888 ("timed out"), soError := 0 }).res.success = false
    ∧ (try_connect2 ("192.0.2.9") 119
        { connRes := ConnResult.err 888 ("timed out"), soError := 0 }).socketClosed = false
    ∧ (try_connect1 ("192.0.2.9") 119
        { connRes := ConnResult.err 888 ("timed out"), soError := 0 }).socketClosed = true :=
  ⟨rfl, rfl, rfl⟩

/-- Claim C10: when resolution succeeds but yields an empty address list,
happy1.py's `happy_eyeballs` and happy3.py's `happyeyeballs` construct
`ThreadPoolExecutor(max_workers=len(addresses))` with `max_workers = 0`,
which raises `ValueError` instead of returning a no-winner result. -/
theorem C10_empty_resolution_raises_value_error :
    ∀ (conn : Addr1 → SockEnv) (completed1 : List Addr1)
      (timeout : Nat) (completed3 : List Outcome3),
      happy_eyeballs1 (DnsResult.ok []) conn completed1
          = Except.error (PyError.valueError ("max_workers must be greater than 0"))
      ∧ happyeyeballs3 timeout (Except.ok []) completed3
          = Except.error (PyError.valueError ("max_workers must be greater than 0")) :=
  fun _ _ _ _ => ⟨rfl, rfl⟩

/-- Witness for `C2_first_completion_wins`: the first-completing success
wins even though a later-completing success is faster. -/
theorem C2_first_completion_wins_witness :
    (h2_loop 888
        [ { ip := "192.0.2.1", port := 119, durationMs := 500, success := true, error := none },
          { ip := "192.0.2.2", port := 119, durationMs := 20, success := true, error := none } ]
        none).1
      = ([ { ip := "192.0.2.1", port := 119, durationMs := 500, success := true, error := none },
           { ip := "192.0.2.2", port := 119, durationMs := 20, success := true, error := none } ]
         : List Outcome2).find? (winnerCond 888)
    ∧ h3_loop 888 [] none = (([] : List Outcome3).find? (winnerCond3 888)).map mkAddrInfo3 :=
  C2_first_completion_wins 888
    [ { ip := "192.0.2.1", port := 119, durationMs := 500, success := true, error := none },
      { ip := "192.0.2.2", port := 119, durationMs := 20, success := true, error := none } ] []

/-- Witness for `C4_outcome_fields` on a probe that times out after 6 ms. -/
theorem C4_outcome_fields_witness :
    (try_connect2 ("192.0.2.3") 119
        { connRes := ConnResult.err 6 ("timed out"), soError := 0 }).res.durationMs = 6
    ∧ ((try_connect2 ("192.0.2.3") 119
          { connRes := ConnResult.err 6 ("timed out"), soError := 0 }).res.error.isSome
        ↔ (try_connect2 ("192.0.2.3") 119
            { connRes := ConnResult.err 6 ("timed out"), soError := 0 }).res.success = false)
    ∧ (try_connect3 2 ("192.0.2.3") 119 888
        { connRes := ConnResult.err 6 ("timed out"), soError := 0 }).res.durationMs = 6
    ∧ ((try_connect3 2 ("192.0.2.3") 119 888
          { connRes := ConnResult.err 6 ("timed out"), soError := 0 }).res.error.isSome
        ↔ (try_connect3 2 ("192.0.2.3") 119 888
            { connRes := ConnResult.err 6 ("timed out"), soError := 0 }).res.success = false) :=
  C4_outcome_fields ("192.0.2.3") 119
    { connRes := ConnResult.err 6 ("timed out"), soError := 0 } 2 888

/-- Witness for `C10_empty_resolution_raises_value_error`. -/
theorem C10_empty_resolution_witness :
    happy_eyeballs1 (DnsResult.ok [])
        (fun _ => { connRes := ConnResult.ok 1, soError := 0 }) []
      = Except.error (PyError.valueError ("max_workers must be greater than 0"))
    ∧ happyeyeballs3 888 (Except.ok []) []
      = Except.error (PyError.valueError ("max_workers must be greater than 0")) :=
  C10_empty_resolution_raises_value_error
    (fun _ => { connRes := ConnResult.ok 1, soError := 0 }) [] 888 []
